import Mathlib

/-!
Verification of the MoWave hotspot-voucher backend.

Shallow embedding of the in-memory database (`models/database.js`), the
payment-gateway simulator (`services/paymentService.js`) and the HTTP route
handlers for vouchers (`routes/vouchers.js`), payments (`routes/payments.js`)
and the admin payment update (`routes/admin.js`).

Conventions of the embedding:
* timestamps are natural numbers (milliseconds since epoch, as `Date.now()`);
* entity ids (uuids in the source) are natural numbers;
* `Map` collections become lists of entities carrying their id, with
  `Map.get`-style lookup as `List.find?` on the id and `Object.assign`
  mutation as a field update applied at the matching id;
* JavaScript `null`/`undefined` fields become `Option`;
* the `Math.random()` draws are explicit oracle parameters: one rational in
  `[0,1)` for the success draw, six bytes for `crypto.randomBytes(6)`, and a
  `Fin 5` index for the failure-scenario pick.
-/

/-- A user record (`models/database.js`, `createUser`). -/
structure User where
  uid : Nat
  email : String
  password : String
  role : String
  createdAt : Nat
  isActive : Bool
deriving DecidableEq, Repr

/-- A voucher record (`models/database.js`, `createVoucher`).  The `userInfo`
field is absent at creation and added by the redeem route via
`Object.assign`; it is modelled as an `Option` that starts `none`. -/
structure Voucher where
  vid : Nat
  code : String
  duration : Nat
  price : Int
  dataLimit : String
  status : String
  isUsed : Bool
  createdAt : Nat
  expiresAt : Nat
  usedAt : Option Nat
  userId : Option Nat
  userInfo : Option String
deriving DecidableEq, Repr

/-- The provider-shaped nested response stored on a settled payment
(`paymentService.js`, the `providerResponse` objects of the four branches). -/
inductive ProviderResponse where
  | mtnOk (externalId : String) (amount : String) (partyId : String)
      (requestId : String)
  | mtnFail (code : String) (message : String) (requestId : String)
  | airtelOk (transactionId : String) (transactionReference : String)
      (amount : String) (subscriberMsisdn : String) (airtelMoneyId : String)
  | airtelFail (errorCode : String) (errorMessage : String)
      (transactionReference : String)
deriving DecidableEq, Repr

/-- A payment record (`routes/payments.js` POST handler plus the fields added
later by settlement, cancellation and the admin update). -/
structure Payment where
  pid : Nat
  amount : Int
  phoneNumber : String
  paymentMethod : String
  voucherId : Option Nat
  userId : Option Nat
  status : String
  transactionId : Option String
  reference : String
  metaVoucherCode : String
  metaDataLimit : String
  metaDuration : Nat
  createdAt : Nat
  completedAt : Option Nat
  cancelledAt : Option Nat
  failureReason : Option String
  errorCode : Option String
  providerResponse : Option ProviderResponse
  adminNotes : Option String
deriving DecidableEq, Repr

/-- A hotspot session (`models/database.js`, `createSession`, as invoked by
the redeem route). -/
structure Session where
  sid : Nat
  voucherId : Nat
  userId : Option Nat
  duration : Nat
  dataLimit : String
  startTime : Nat
  endTime : Nat
  createdAt : Nat
  isActive : Bool
deriving DecidableEq, Repr

/-- The in-memory database (`models/database.js`, class `Database`). -/
structure Store where
  users : List User
  vouchers : List Voucher
  payments : List Payment
  sessions : List Session
deriving DecidableEq, Repr

/-- `Map.get`-style lookup of a payment by id (`getPaymentById`). -/
def getPaymentById (s : Store) (id : Nat) : Option Payment :=
  s.payments.find? (fun p => p.pid == id)

/-- `Map.get`-style lookup of a voucher by id (`getVoucherById`). -/
def getVoucherById (s : Store) (id : Nat) : Option Voucher :=
  s.vouchers.find? (fun v => v.vid == id)

/-- Linear scan for a voucher by code (`getVoucherByCode`). -/
def getVoucherByCode (s : Store) (code : String) : Option Voucher :=
  s.vouchers.find? (fun v => v.code == code)

/-- `Object.assign` mutation of the entity with the given id: the update
function is applied exactly at the matching id, every other entry is kept. -/
def updateById {α : Type} (getId : α → Nat) (id : Nat) (f : α → α)
    (l : List α) : List α :=
  l.map (fun x => if getId x = id then f x else x)

/-- The aggregate statistics record returned by `getStats`. -/
structure Stats where
  totalVouchers : Nat
  usedVouchers : Nat
  availableVouchers : Nat
  totalPayments : Nat
  successfulPayments : Nat
  totalRevenue : Int
  activeUsers : Nat
deriving DecidableEq, Repr

/-- `Database.getStats` (`models/database.js` lines 198-216): sizes, the used
filter, and revenue as a `reduce` (left fold) over successful payments. -/
def getStats (s : Store) : Stats :=
  let totalVouchers := s.vouchers.length
  let usedVouchers := (s.vouchers.filter (fun v => v.isUsed)).length
  let totalPayments := s.payments.length
  let successfulPayments :=
    (s.payments.filter (fun p => p.status == "success")).length
  let totalRevenue :=
    (s.payments.filter (fun p => p.status == "success")).foldl
      (fun sum p => sum + p.amount) 0
  { totalVouchers := totalVouchers
    usedVouchers := usedVouchers
    availableVouchers := totalVouchers - usedVouchers
    totalPayments := totalPayments
    successfulPayments := successfulPayments
    totalRevenue := totalRevenue
    activeUsers := s.users.length }

/-- A left fold accumulating `+ f x` computes the sum of the mapped list. -/
theorem foldl_add_eq_sum {α : Type} (f : α → Int) (l : List α) (acc : Int) :
    l.foldl (fun sum x => sum + f x) acc = acc + (l.map f).sum := by
  induction l generalizing acc with
  | nil => simp
  | cons x xs ih => simp [List.foldl_cons, ih, add_assoc]

/-! ## Payment gateway simulator (`services/paymentService.js`) -/

/-- One `{error, message}` entry of a failure-scenario table. -/
structure FailureScenario where
  error : String
  message : String
deriving DecidableEq, Repr

/-- One hexadecimal digit, upper case (the source produces lower-case hex via
`toString('hex')` and immediately applies `.toUpperCase()`). -/
def hexChar (n : Nat) : Char :=
  if n < 10 then Char.ofNat (48 + n) else Char.ofNat (65 + (n - 10))

/-- The character list of `crypto.randomBytes(k).toString('hex').toUpperCase()`
for an explicit byte list: two hex digits per byte. -/
def bytesToHexChars : List Nat → List Char
  | [] => []
  | b :: bs => hexChar (b / 16) :: hexChar (b % 16) :: bytesToHexChars bs

/-- `crypto.randomBytes(k).toString('hex').toUpperCase()` as a string. -/
def bytesToHex (bs : List Nat) : String :=
  String.mk (bytesToHexChars bs)

/-- `PaymentService.generateTransactionId` with the random bytes explicit; the
`provider` argument is already upper case at both call sites
(`generateTransactionId('MTN')` / `generateTransactionId('AIRTEL')`), so
`provider.toUpperCase()` is the identity here. -/
def generateTransactionId (provider : String) (bytes : List Nat) : String :=
  provider ++ "_" ++ bytesToHex bytes

/-- The MTN failure-scenario table (`paymentService.js` lines 75-81). -/
def mtnFailureScenarios : List FailureScenario :=
  [ ⟨"INSUFFICIENT_FUNDS", "Insufficient balance in your MTN MoMo account"⟩,
    ⟨"INVALID_PHONE_NUMBER", "Phone number is not registered for MTN MoMo"⟩,
    ⟨"TRANSACTION_DECLINED", "Transaction was declined by MTN MoMo"⟩,
    ⟨"ACCOUNT_BLOCKED", "Your MTN MoMo account is temporarily blocked"⟩,
    ⟨"NETWORK_ERROR", "Network error occurred. Please try again"⟩ ]

/-- The Airtel failure-scenario table (`paymentService.js` lines 151-157). -/
def airtelFailureScenarios : List FailureScenario :=
  [ ⟨"INSUFFICIENT_BALANCE", "Insufficient balance in your Airtel Money account"⟩,
    ⟨"INVALID_SUBSCRIBER", "Invalid Airtel Money subscriber"⟩,
    ⟨"TRANSACTION_LIMIT_EXCEEDED", "Transaction limit exceeded"⟩,
    ⟨"SERVICE_UNAVAILABLE", "Airtel Money service is temporarily unavailable"⟩,
    ⟨"PIN_BLOCKED", "Your Airtel Money PIN is blocked"⟩ ]

theorem mtnFailureScenarios_length : mtnFailureScenarios.length = 5 := rfl

theorem airtelFailureScenarios_length : airtelFailureScenarios.length = 5 := rfl

/-- `failureScenarios[Math.floor(Math.random() * 5)]` with the uniform index
explicit as `Fin 5`. -/
def mtnScenarioAt (i : Fin 5) : FailureScenario :=
  mtnFailureScenarios.get (Fin.cast mtnFailureScenarios_length.symm i)

/-- Airtel counterpart of `mtnScenarioAt`. -/
def airtelScenarioAt (i : Fin 5) : FailureScenario :=
  airtelFailureScenarios.get (Fin.cast airtelFailureScenarios_length.symm i)

/-- The flat part of a gateway response common to both providers and both
outcomes (`success`, top-level identifiers, echoed request fields, human
message); the provider-shaped nested object lives in `providerResponse`.  The
`timestamp` strings of the source are omitted. -/
structure GwResponse where
  success : Bool
  provider : String
  transactionId : Option String
  reference : String
  amount : Int
  phoneNumber : String
  status : String
  error : Option String
  message : String
  providerResponse : ProviderResponse
deriving DecidableEq, Repr

/-- `processMTNMoMoPayment` (`paymentService.js` lines 27-105), with the
`Math.random()` success draw `r`, the transaction-id bytes and the
failure-scenario index as explicit oracle inputs.  The simulated 3000 ms delay
has no effect on the returned value and is dropped. -/
def processMTNMoMoPayment (amount : Int) (phoneNumber reference : String)
    (r : ℚ) (txBytes : List Nat) (failIdx : Fin 5) : GwResponse :=
  if r < 85 / 100 then
    let transactionId := generateTransactionId "MTN" txBytes
    { success := true
      provider := "MTN_MOMO"
      transactionId := some transactionId
      reference := reference
      amount := amount
      phoneNumber := phoneNumber
      status := "COMPLETED"
      error := none
      message := "Payment completed successfully"
      providerResponse :=
        .mtnOk transactionId (toString amount) phoneNumber reference }
  else
    let scenario := mtnScenarioAt failIdx
    { success := false
      provider := "MTN_MOMO"
      transactionId := none
      reference := reference
      amount := amount
      phoneNumber := phoneNumber
      status := "FAILED"
      error := some scenario.error
      message := scenario.message
      providerResponse := .mtnFail scenario.error scenario.message reference }

/-- `processAirtelMoneyPayment` (`paymentService.js` lines 108-182); `amId` is
the random `airtel_money_id` suffix of the success response, and the 4000 ms
delay is dropped as above. -/
def processAirtelMoneyPayment (amount : Int) (phoneNumber reference : String)
    (r : ℚ) (txBytes : List Nat) (failIdx : Fin 5) (amId : String) :
    GwResponse :=
  if r < 80 / 100 then
    let transactionId := generateTransactionId "AIRTEL" txBytes
    { success := true
      provider := "AIRTEL_MONEY"
      transactionId := some transactionId
      reference := reference
      amount := amount
      phoneNumber := phoneNumber
      status := "COMPLETED"
      error := none
      message := "Payment processed successfully"
      providerResponse :=
        .airtelOk transactionId reference (toString amount) phoneNumber
          ("AM" ++ amId) }
  else
    let scenario := airtelScenarioAt failIdx
    { success := false
      provider := "AIRTEL_MONEY"
      transactionId := none
      reference := reference
      amount := amount
      phoneNumber := phoneNumber
      status := "FAILED"
      error := some scenario.error
      message := scenario.message
      providerResponse :=
        .airtelFail scenario.error scenario.message reference }

/-! ## Settlement (`PaymentService.processPayment`, db-updating block) -/

/-- The `updateData` merge applied to the pending payment once the gateway
result is in (`paymentService.js` lines 205-217): status, transaction id,
provider response and `completedAt` always; `failureReason`/`errorCode` only
on failure (on success those fields are not mentioned and survive the
`Object.assign`). -/
def settlePaymentUpdate (now : Nat) (result : GwResponse) (p : Payment) :
    Payment :=
  let p1 := { p with
    status := if result.success then "success" else "failed"
    transactionId := result.transactionId
    providerResponse := some result.providerResponse
    completedAt := some now }
  if result.success then p1
  else { p1 with
    failureReason := some result.message
    errorCode := result.error }

/-- The database effect of `PaymentService.processPayment` given the gateway
result (`paymentService.js` lines 202-227): if the payment exists it is
updated via `settlePaymentUpdate`, and additionally, when the result is a
success and a voucher id was passed, that voucher is marked used.  Sessions
are never touched here. -/
def processPaymentDb (s : Store) (now : Nat) (paymentId : Nat)
    (voucherId : Option Nat) (userId : Option Nat) (result : GwResponse) :
    Store :=
  match getPaymentById s paymentId with
  | none => s
  | some _ =>
    let s1 := { s with
      payments :=
        updateById Payment.pid paymentId (settlePaymentUpdate now result)
          s.payments }
    match voucherId with
    | some vid =>
      if result.success then
        { s1 with
          vouchers :=
            updateById Voucher.vid vid
              (fun v =>
                { v with isUsed := true, usedAt := some now, userId := userId })
              s1.vouchers }
      else s1
    | none => s1

/-- The data handed to the asynchronous settlement task by the POST /payments
handler (`routes/payments.js` lines 127-135). -/
structure SettleTask where
  paymentId : Nat
  reference : String
  amount : Int
  phoneNumber : String
  paymentMethod : String
  voucherId : Option Nat
  userId : Option Nat
deriving DecidableEq, Repr

/-- Outcome of one settlement run: a gateway result, or the catch branch of
`processPayment` for an unsupported method. -/
inductive SettleOutcome where
  | gateway (result : GwResponse)
  | processingError (message : String)
deriving DecidableEq, Repr

/-- `PaymentService.processPayment` (dispatch plus db effect,
`paymentService.js` lines 185-251).  For an unsupported method the thrown
error is caught and the payment is marked failed with
`errorCode = PROCESSING_ERROR` (no existence guard in that branch, matching
`db.updatePayment`, which is a no-op on a missing id). -/
def runSettlement (s : Store) (now : Nat) (task : SettleTask) (r : ℚ)
    (txBytes : List Nat) (failIdx : Fin 5) (amId : String) :
    SettleOutcome × Store :=
  if task.paymentMethod = "mtn_momo" then
    let result :=
      processMTNMoMoPayment task.amount task.phoneNumber task.reference r
        txBytes failIdx
    (.gateway result,
      processPaymentDb s now task.paymentId task.voucherId task.userId result)
  else if task.paymentMethod = "airtel_money" then
    let result :=
      processAirtelMoneyPayment task.amount task.phoneNumber task.reference r
        txBytes failIdx amId
    (.gateway result,
      processPaymentDb s now task.paymentId task.voucherId task.userId result)
  else
    let msg := "Unsupported payment method: " ++ task.paymentMethod
    (.processingError msg,
      { s with
        payments :=
          updateById Payment.pid task.paymentId
            (fun p =>
              { p with
                status := "failed"
                failureReason := some msg
                errorCode := some "PROCESSING_ERROR" })
            s.payments })

/-! ## Voucher routes (`routes/vouchers.js`) -/

/-- Outcome of POST /vouchers/validate. -/
inductive ValidateResult where
  | missingCode
  | notFound
  | alreadyUsed
  | inactive
  | expired
  | ok (code : String) (duration : Nat) (dataLimit : String) (expiresAt : Nat)
deriving DecidableEq, Repr

/-- POST /vouchers/validate (`routes/vouchers.js` lines 57-115): lookup by
code, then the used / status / expiry checks in source order; read-only. -/
def validateVoucher (s : Store) (now : Nat) (code : String) : ValidateResult :=
  if code = "" then .missingCode
  else
    match getVoucherByCode s code with
    | none => .notFound
    | some v =>
      if v.isUsed then .alreadyUsed
      else if v.status ≠ "active" then .inactive
      else if now > v.expiresAt then .expired
      else .ok v.code v.duration v.dataLimit v.expiresAt

/-- Outcome of POST /vouchers/redeem; `ok` carries the created session. -/
inductive RedeemResult where
  | missingCode
  | notFound
  | alreadyUsed
  | expired
  | ok (sess : Session)
deriving DecidableEq, Repr

/-- POST /vouchers/redeem (`routes/vouchers.js` lines 118-189): lookup by
code, then only the used and expiry checks (no status check), then the
voucher is marked used and a session is appended with
`endTime = now + duration * 60 * 60 * 1000`.  `sid` is the fresh session id,
`uid` is `userInfo?.userId`, `uinfo` the raw `userInfo` payload. -/
def redeemVoucher (s : Store) (now : Nat) (sid : Nat) (code : String)
    (uid : Option Nat) (uinfo : Option String) : RedeemResult × Store :=
  if code = "" then (.missingCode, s)
  else
    match getVoucherByCode s code with
    | none => (.notFound, s)
    | some v =>
      if v.isUsed then (.alreadyUsed, s)
      else if now > v.expiresAt then (.expired, s)
      else
        let s1 := { s with
          vouchers :=
            updateById Voucher.vid v.vid
              (fun w =>
                { w with
                  isUsed := true
                  usedAt := some now
                  userId := uid
                  userInfo := uinfo })
              s.vouchers }
        let sess : Session :=
          { sid := sid
            voucherId := v.vid
            userId := uid
            duration := v.duration
            dataLimit := v.dataLimit
            startTime := now
            endTime := now + v.duration * 60 * 60 * 1000
            createdAt := now
            isActive := true }
        (.ok sess, { s1 with sessions := s1.sessions ++ [sess] })

/-! ## Payment routes (`routes/payments.js`) -/

/-- A POST /payments request body; `amount` is `none` when the field is
missing. -/
structure PayRequest where
  amount : Option Int
  phoneNumber : String
  paymentMethod : String
  voucherId : Option Nat
  userId : Option Nat
deriving DecidableEq, Repr

/-- The rejection reasons of POST /payments, in the order the handler checks
them: the five `validatePaymentData` rejections, then the three
voucher-related ones of the handler body. -/
inductive InitError where
  | invalidAmount
  | invalidPhone
  | mtnIncompatible
  | airtelIncompatible
  | invalidMethod
  | missingVoucherId
  | voucherNotFound
  | voucherAlreadyUsed
  | amountMismatch
deriving DecidableEq, Repr

/-- Outcome of POST /payments; `created` carries the new pending payment. -/
inductive InitResult where
  | err (e : InitError)
  | created (p : Payment)
deriving DecidableEq, Repr

/-- `!amount || amount < 1000 || amount > 50000`: a missing amount is falsy,
and the only other falsy number, `0`, is already below 1000. -/
def amountInvalid : Option Int → Bool
  | none => true
  | some a => a < 1000 || a > 50000

/-- `String.startsWith`, computed on the underlying character lists (the
library version is defined by well-founded recursion on byte positions and
does not reduce; this list version is extensionally the same test). -/
def strStartsWith (s pre : String) : Bool :=
  pre.data.isPrefixOf s.data

/-- The regex `^256[0-9]{9}$`: twelve digit characters starting with 256. -/
def phoneFormatOk (p : String) : Bool :=
  p.length == 12 && strStartsWith p "256" && p.data.all Char.isDigit

/-- MTN prefixes accepted by the validator (`routes/payments.js` line 27). -/
def mtnPrefixes : List String := ["256070", "256077", "256078", "256039"]

/-- Airtel prefixes accepted by the validator (`routes/payments.js` line 28). -/
def airtelPrefixes : List String := ["256070", "256075", "256074", "256020"]

/-- The `validatePaymentData` middleware (`routes/payments.js` lines 16-71):
amount range, phone format, method/phone compatibility, method validity,
voucher id presence — in source order. -/
def validatePaymentData (req : PayRequest) : Option InitError :=
  if amountInvalid req.amount then some .invalidAmount
  else if ¬ phoneFormatOk req.phoneNumber then some .invalidPhone
  else if req.paymentMethod = "mtn_momo" ∧
      ¬ mtnPrefixes.any (fun pfx => strStartsWith req.phoneNumber pfx) then
    some .mtnIncompatible
  else if req.paymentMethod = "airtel_money" ∧
      ¬ airtelPrefixes.any (fun pfx => strStartsWith req.phoneNumber pfx) then
    some .airtelIncompatible
  else if ¬ (req.paymentMethod = "mtn_momo" ∨
      req.paymentMethod = "airtel_money") then
    some .invalidMethod
  else if req.voucherId = none then some .missingVoucherId
  else none

/-- POST /payments (`routes/payments.js` lines 74-181), up to the synchronous
201 response: validation middleware, voucher lookup, used and price checks,
then `db.createPayment` appends the pending record.  `newId` is the fresh
payment id and `ref` the generated reference.  The asynchronous settlement
task it spawns is `runSettlement`. -/
def initiatePayment (s : Store) (now : Nat) (newId : Nat) (ref : String)
    (req : PayRequest) : InitResult × Store :=
  match validatePaymentData req with
  | some e => (.err e, s)
  | none =>
    match req.voucherId with
    | none => (.err .missingVoucherId, s) -- unreachable: validation passed
    | some vid =>
      match getVoucherById s vid with
      | none => (.err .voucherNotFound, s)
      | some v =>
        match req.amount with
        | none => (.err .invalidAmount, s) -- unreachable: validation passed
        | some a =>
          if v.isUsed then (.err .voucherAlreadyUsed, s)
          else if v.price ≠ a then (.err .amountMismatch, s)
          else
            let p : Payment :=
              { pid := newId
                amount := a
                phoneNumber := req.phoneNumber
                paymentMethod := req.paymentMethod
                voucherId := some vid
                userId := req.userId
                status := "pending"
                transactionId := none
                reference := ref
                metaVoucherCode := v.code
                metaDataLimit := v.dataLimit
                metaDuration := v.duration
                createdAt := now
                completedAt := none
                cancelledAt := none
                failureReason := none
                errorCode := none
                providerResponse := none
                adminNotes := none }
            (.created p, { s with payments := s.payments ++ [p] })

/-- Outcome of DELETE /payments/:id. -/
inductive CancelResult where
  | notFound
  | invalidState
  | ok (p : Payment)
deriving DecidableEq, Repr

/-- DELETE /payments/:id (`routes/payments.js` lines 488-533): only a pending
payment may be cancelled; cancellation sets `status = cancelled` and
`cancelledAt = now`. -/
def cancelPayment (s : Store) (now : Nat) (id : Nat) : CancelResult × Store :=
  match getPaymentById s id with
  | none => (.notFound, s)
  | some payment =>
    if payment.status ≠ "pending" then (.invalidState, s)
    else
      let upd : Payment → Payment := fun p =>
        { p with status := "cancelled", cancelledAt := some now }
      (.ok (upd payment),
        { s with payments := updateById Payment.pid id upd s.payments })

/-- The valid status list shared by both update routes. -/
def validStatuses : List String := ["pending", "success", "failed", "cancelled"]

/-- Outcome of the two PUT payment-update routes. -/
inductive UpdateResult where
  | notFound
  | invalidStatus
  | ok (p : Payment)
deriving DecidableEq, Repr

/-- `status && !validStatuses.includes(status)` of both update routes. -/
def statusInvalid : Option String → Bool
  | some st => ¬ validStatuses.contains st
  | none => false

/-- PUT /payments/:id (`routes/payments.js` lines 419-485): any status of the
valid list is accepted regardless of the current one; a `none` field is
absent from the body and left out of `updateData`.  When moving to `success`
from a different status, an unused bound voucher is marked used and
`completedAt` is set.  The SMS side effect is external and dropped. -/
def updatePaymentRoute (s : Store) (now : Nat) (id : Nat)
    (status transactionId failureReason errorCode : Option String) :
    UpdateResult × Store :=
  match getPaymentById s id with
  | none => (.notFound, s)
  | some payment =>
    if statusInvalid status then (.invalidStatus, s)
    else
      let upd : Payment → Payment := fun p =>
        let p := match status with
          | some st => { p with status := st }
          | none => p
        let p := match transactionId with
          | some t => { p with transactionId := some t }
          | none => p
        let p := match failureReason with
          | some fr => { p with failureReason := some fr }
          | none => p
        let p := match errorCode with
          | some ec => { p with errorCode := some ec }
          | none => p
        if status = some "success" ∧ payment.status ≠ "success" then
          { p with completedAt := some now }
        else p
      let vouchersAfter :=
        if status = some "success" ∧ payment.status ≠ "success" then
          match payment.voucherId with
          | some vid =>
            match getVoucherById s vid with
            | some v =>
              if ¬ v.isUsed then
                updateById Voucher.vid vid
                  (fun w =>
                    { w with
                      isUsed := true
                      usedAt := some now
                      userId := payment.userId })
                  s.vouchers
              else s.vouchers
            | none => s.vouchers
          | none => s.vouchers
        else s.vouchers
      (.ok (upd payment),
        { s with vouchers := vouchersAfter,
                 payments := updateById Payment.pid id upd s.payments })

/-- PUT /admin/payments/:id (`routes/admin.js` lines 609-673): like the
non-admin route but with `notes → adminNotes` instead of
transactionId/errorCode, and an extra branch freeing the voucher when a
`success` payment is forced to `failed`. -/
def adminUpdatePayment (s : Store) (now : Nat) (id : Nat)
    (status failureReason notes : Option String) : UpdateResult × Store :=
  match getPaymentById s id with
  | none => (.notFound, s)
  | some payment =>
    if statusInvalid status then (.invalidStatus, s)
    else
      let upd : Payment → Payment := fun p =>
        let p := match status with
          | some st => { p with status := st }
          | none => p
        let p := match failureReason with
          | some fr => { p with failureReason := some fr }
          | none => p
        let p := match notes with
          | some n => { p with adminNotes := some n }
          | none => p
        if status = some "success" ∧ payment.status ≠ "success" then
          { p with completedAt := some now }
        else p
      let vouchersAfter :=
        if status = some "success" ∧ payment.status ≠ "success" then
          match payment.voucherId with
          | some vid =>
            match getVoucherById s vid with
            | some v =>
              if ¬ v.isUsed then
                updateById Voucher.vid vid
                  (fun w =>
                    { w with
                      isUsed := true
                      usedAt := some now
                      userId := payment.userId })
                  s.vouchers
              else s.vouchers
            | none => s.vouchers
          | none => s.vouchers
        else if status = some "failed" ∧ payment.status = "success" then
          match payment.voucherId with
          | some vid =>
            match getVoucherById s vid with
            | some v =>
              if v.isUsed then
                updateById Voucher.vid vid
                  (fun w =>
                    { w with
                      isUsed := false
                      usedAt := none
                      userId := none })
                  s.vouchers
              else s.vouchers
            | none => s.vouchers
          | none => s.vouchers
        else s.vouchers
      (.ok (upd payment),
        { s with vouchers := vouchersAfter,
                 payments := updateById Payment.pid id upd s.payments })

/-! ## Helper lemmas -/

/-- Looking up by a predicate after an `updateById` whose update function
preserves the predicate: the first match is the updated version of the first
match of the original list, provided that match carries the updated id. -/
theorem find?_updateById {α : Type} (gid : α → Nat) (q : α → Bool) (id : Nat)
    (g : α → α) (l : List α) (x : α)
    (hq : ∀ y, q (g y) = q y)
    (hfind : l.find? q = some x) (hx : gid x = id) :
    (updateById gid id g l).find? q = some (g x) := by
  induction l with
  | nil => simp [List.find?] at hfind
  | cons y ys ih =>
    unfold updateById at ih ⊢
    simp only [List.map_cons]
    by_cases hy : q y = true
    · rw [List.find?_cons_of_pos _ hy] at hfind
      obtain rfl : y = x := by injection hfind
      rw [if_pos hx]
      exact List.find?_cons_of_pos _ (by rw [hq]; exact hy)
    · rw [List.find?_cons_of_neg _ (by simpa using hy)] at hfind
      have hhead : ¬ q (if gid y = id then g y else y) = true := by
        split
        · rw [hq]; simpa using hy
        · simpa using hy
      rw [List.find?_cons_of_neg _ hhead]
      exact ih hfind

/-- `find?` skips a leading block with no match. -/
theorem find?_append_of_none {α : Type} (q : α → Bool) (l₁ l₂ : List α)
    (h : ∀ x ∈ l₁, ¬ q x = true) :
    (l₁ ++ l₂).find? q = l₂.find? q := by
  induction l₁ with
  | nil => rfl
  | cons y ys ih =>
    rw [List.cons_append, List.find?_cons_of_neg _ (h y (by simp))]
    exact ih (fun x hx => h x (by simp [hx]))

/-- Hex strings of byte lists have two characters per byte. -/
theorem bytesToHexChars_length (bs : List Nat) :
    (bytesToHexChars bs).length = 2 * bs.length := by
  induction bs with
  | nil => rfl
  | cons b bs ih => simp [bytesToHexChars, ih]; ring

/-- An upper-case hexadecimal digit. -/
def isUpperHexDigit (c : Char) : Bool :=
  c.isDigit || ('A' ≤ c && c ≤ 'F')

/-- `hexChar` of a nibble is an upper-case hex digit. -/
theorem hexChar_isUpperHexDigit (n : Nat) (h : n < 16) :
    isUpperHexDigit (hexChar n) = true := by
  interval_cases n <;> decide

/-- Every character of the hex rendering of a byte list is an upper-case hex
digit. -/
theorem bytesToHexChars_hex (bs : List Nat) (h : ∀ b ∈ bs, b < 256) :
    ∀ c ∈ bytesToHexChars bs, isUpperHexDigit c = true := by
  induction bs with
  | nil => simp [bytesToHexChars]
  | cons b bs ih =>
    intro c hc
    have hb : b < 256 := h b (by simp)
    simp only [bytesToHexChars, List.mem_cons] at hc
    rcases hc with rfl | rfl | hc
    · exact hexChar_isUpperHexDigit _ (by omega)
    · exact hexChar_isUpperHexDigit _ (Nat.mod_lt _ (by norm_num))
    · exact ih (fun x hx => h x (by simp [hx])) c hc

theorem length_string_mk (l : List Char) : (String.mk l).length = l.length := rfl

/-- The picked MTN failure scenario always comes from the fixed table. -/
theorem mtnScenarioAt_mem : ∀ i : Fin 5, mtnScenarioAt i ∈ mtnFailureScenarios := by
  decide

/-- The picked Airtel failure scenario always comes from the fixed table. -/
theorem airtelScenarioAt_mem :
    ∀ i : Fin 5, airtelScenarioAt i ∈ airtelFailureScenarios := by
  decide

/-- Settlement never changes a payment's id. -/
theorem settlePaymentUpdate_pid (now : Nat) (result : GwResponse)
    (p : Payment) : (settlePaymentUpdate now result p).pid = p.pid := by
  unfold settlePaymentUpdate
  split <;> rfl

/-! ## Claims -/

/-- Claim C8: for every store state, `getStats` returns `totalVouchers` equal
to the number of vouchers, `usedVouchers` equal to the number of vouchers
with `isUsed = true`, `availableVouchers` equal to their difference,
`totalRevenue` equal to the sum of `amount` over the payments with
status `success`, and `activeUsers` equal to the total number of users. -/
theorem claim_C8 (s : Store) :
    (getStats s).totalVouchers = s.vouchers.length ∧
    (getStats s).usedVouchers = s.vouchers.countP (fun v => v.isUsed) ∧
    (getStats s).availableVouchers =
      s.vouchers.length - s.vouchers.countP (fun v => v.isUsed) ∧
    (getStats s).totalRevenue =
      ((s.payments.filter (fun p => p.status == "success")).map
        (fun p => p.amount)).sum ∧
    (getStats s).activeUsers = s.users.length := by
  refine ⟨rfl, ?_, ?_, ?_, rfl⟩
  · simp [getStats, List.countP_eq_length_filter]
  · simp [getStats, List.countP_eq_length_filter]
  · simp [getStats, foldl_add_eq_sum]

/-- Claim C6: cancelling a pending payment sets `status = cancelled` and a
non-null `cancelledAt`; cancelling a payment that is `success`, `failed` or
`cancelled` fails with the invalid-state rejection and leaves the store
untouched. -/
theorem claim_C6 (s : Store) (now id : Nat) (p : Payment)
    (hp : getPaymentById s id = some p) :
    (p.status = "pending" →
      ∃ p', (cancelPayment s now id).1 = .ok p' ∧
        getPaymentById (cancelPayment s now id).2 id = some p' ∧
        p'.status = "cancelled" ∧ p'.cancelledAt = some now ∧
        p'.cancelledAt ≠ none) ∧
    ((p.status = "success" ∨ p.status = "failed" ∨ p.status = "cancelled") →
      (cancelPayment s now id).1 = .invalidState ∧
      (cancelPayment s now id).2 = s) := by
  have hpid : p.pid = id := by
    have := List.find?_some hp
    simpa using this
  constructor
  · intro hpend
    simp only [cancelPayment, hp]
    rw [if_neg (by simp [hpend])]
    refine ⟨_, rfl, ?_, rfl, rfl, by simp⟩
    exact find?_updateById Payment.pid (fun x => x.pid == id) id _ s.payments p
      (fun y => rfl) hp hpid
  · intro hterm
    have hne : p.status ≠ "pending" := by
      rcases hterm with h | h | h <;> simp [h]
    simp only [cancelPayment, hp]
    rw [if_pos hne]
    exact ⟨rfl, rfl⟩

/-- Claim C7: redeeming an existing, unused voucher whose `expiresAt` is in
the past fails with the expired rejection and performs no mutation at all:
the store (vouchers and sessions included) is returned unchanged. -/
theorem claim_C7 (s : Store) (now sid : Nat) (code : String)
    (uid : Option Nat) (uinfo : Option String) (v : Voucher)
    (hcode : code ≠ "")
    (hv : getVoucherByCode s code = some v)
    (hused : v.isUsed = false)
    (hexp : now > v.expiresAt) :
    (redeemVoucher s now sid code uid uinfo).1 = .expired ∧
    (redeemVoucher s now sid code uid uinfo).2 = s := by
  simp only [redeemVoucher, hv, if_neg hcode]
  rw [if_neg (by simp [hused]), if_pos hexp]
  exact ⟨rfl, rfl⟩

/-- Claim C4: an unused, unexpired voucher whose status is not `active` is
rejected by validate as inactive, but redeem (which re-checks only
not-found / already-used / expired) succeeds on it: the voucher is marked
used with `usedAt = now` and a session is created with `startTime = now`
and `endTime = now + duration` hours. -/
theorem claim_C4 (s : Store) (now sid : Nat) (code : String)
    (uid : Option Nat) (uinfo : Option String) (v : Voucher)
    (hcode : code ≠ "")
    (hv : getVoucherByCode s code = some v)
    (hused : v.isUsed = false)
    (hstat : v.status ≠ "active")
    (hexp : ¬ now > v.expiresAt) :
    validateVoucher s now code = .inactive ∧
    ∃ sess,
      (redeemVoucher s now sid code uid uinfo).1 = RedeemResult.ok sess ∧
      sess.startTime = now ∧
      sess.endTime = now + v.duration * 60 * 60 * 1000 ∧
      sess ∈ (redeemVoucher s now sid code uid uinfo).2.sessions ∧
      ∃ v', getVoucherByCode (redeemVoucher s now sid code uid uinfo).2 code
          = some v' ∧ v'.isUsed = true ∧ v'.usedAt = some now := by
  constructor
  · simp only [validateVoucher, hv, if_neg hcode]
    rw [if_neg (by simp [hused]), if_pos hstat]
  · simp only [redeemVoucher, hv, if_neg hcode]
    rw [if_neg (by simp [hused]), if_neg hexp]
    refine ⟨_, rfl, rfl, rfl, by simp, ?_⟩
    have hfind := find?_updateById Voucher.vid (fun w => w.code == code) v.vid
      (fun w =>
        { w with isUsed := true, usedAt := some now, userId := uid,
                 userInfo := uinfo })
      s.vouchers v (fun y => rfl) hv rfl
    exact ⟨_, hfind, rfl, rfl⟩

/-- A pending payment fixture. -/
def c6pending : Payment :=
  { pid := 1, amount := 1000, phoneNumber := "256070123456",
    paymentMethod := "mtn_momo", voucherId := some 1, userId := none,
    status := "pending", transactionId := none, reference := "MW-1",
    metaVoucherCode := "MW-AAAAAAAA", metaDataLimit := "500MB",
    metaDuration := 1, createdAt := 0, completedAt := none,
    cancelledAt := none, failureReason := none, errorCode := none,
    providerResponse := none, adminNotes := none }

/-- A settled payment fixture. -/
def c6success : Payment := { c6pending with pid := 2, status := "success" }

/-- Store fixture with one pending and one successful payment. -/
def c6s : Store :=
  { users := [], vouchers := [], payments := [c6pending, c6success],
    sessions := [] }

/-- Claim C6 witness: the cancellation claims hold at a concrete store with a
pending payment (id 1) and a successful payment (id 2). -/
theorem claim_C6_witness :
    (∃ p', (cancelPayment c6s 9 1).1 = .ok p' ∧
      getPaymentById (cancelPayment c6s 9 1).2 1 = some p' ∧
      p'.status = "cancelled" ∧ p'.cancelledAt = some 9 ∧
      p'.cancelledAt ≠ none) ∧
    ((cancelPayment c6s 9 2).1 = .invalidState ∧
      (cancelPayment c6s 9 2).2 = c6s) :=
  ⟨(claim_C6 c6s 9 1 c6pending rfl).1 rfl,
   (claim_C6 c6s 9 2 c6success rfl).2 (Or.inl rfl)⟩

/-- An expired, unused voucher fixture. -/
def c7voucher : Voucher :=
  { vid := 3, code := "MW-EXPIRED1", duration := 1, price := 1000,
    dataLimit := "500MB", status := "active", isUsed := false,
    createdAt := 0, expiresAt := 10, usedAt := none, userId := none,
    userInfo := none }

/-- Store fixture holding the expired voucher. -/
def c7s : Store :=
  { users := [], vouchers := [c7voucher], payments := [], sessions := [] }

/-- Claim C7 witness: redeeming the expired voucher at time 11 (past its
`expiresAt = 10`) is rejected as expired and the store is unchanged. -/
theorem claim_C7_witness :
    (redeemVoucher c7s 11 50 "MW-EXPIRED1" none none).1 = .expired ∧
    (redeemVoucher c7s 11 50 "MW-EXPIRED1" none none).2 = c7s :=
  claim_C7 c7s 11 50 "MW-EXPIRED1" none none c7voucher (by decide) rfl rfl
    (by decide)

/-- An unused, unexpired voucher fixture whose status is `inactive`. -/
def c4voucher : Voucher :=
  { vid := 4, code := "MW-INACTIVE", duration := 6, price := 5000,
    dataLimit := "2GB", status := "inactive", isUsed := false,
    createdAt := 0, expiresAt := 1000000, usedAt := none, userId := none,
    userInfo := none }

/-- Store fixture holding the inactive voucher. -/
def c4s : Store :=
  { users := [], vouchers := [c4voucher], payments := [], sessions := [] }

/-- Claim C4 witness: at time 500 the inactive voucher fails validation but
redeems successfully, marking it used and opening a 6-hour session. -/
theorem claim_C4_witness :
    validateVoucher c4s 500 "MW-INACTIVE" = .inactive ∧
    ∃ sess,
      (redeemVoucher c4s 500 60 "MW-INACTIVE" none none).1 =
        RedeemResult.ok sess ∧
      sess.startTime = 500 ∧
      sess.endTime = 500 + 6 * 60 * 60 * 1000 ∧
      sess ∈ (redeemVoucher c4s 500 60 "MW-INACTIVE" none none).2.sessions ∧
      ∃ v', getVoucherByCode
          (redeemVoucher c4s 500 60 "MW-INACTIVE" none none).2 "MW-INACTIVE"
          = some v' ∧ v'.isUsed = true ∧ v'.usedAt = some 500 :=
  claim_C4 c4s 500 60 "MW-INACTIVE" none none c4voucher (by decide) rfl rfl
    (by decide) (by decide)

/-- Claim C2: when a settlement task completes, a gateway success turns the
payment `success` with `completedAt` set and marks the bound voucher used
with `usedAt` set; a gateway failure turns the payment `failed`, records
`failureReason` and `errorCode`, and leaves every voucher untouched. -/
theorem claim_C2 (s : Store) (now pid vid : Nat) (uid : Option Nat)
    (result : GwResponse) (p : Payment) (v : Voucher)
    (hp : getPaymentById s pid = some p)
    (hv : getVoucherById s vid = some v) :
    (result.success = true →
      (∃ p', getPaymentById (processPaymentDb s now pid (some vid) uid result)
          pid = some p' ∧
        p'.status = "success" ∧ p'.completedAt = some now) ∧
      (∃ v', getVoucherById (processPaymentDb s now pid (some vid) uid result)
          vid = some v' ∧
        v'.isUsed = true ∧ v'.usedAt = some now)) ∧
    (result.success = false →
      (∃ p', getPaymentById (processPaymentDb s now pid (some vid) uid result)
          pid = some p' ∧
        p'.status = "failed" ∧ p'.failureReason = some result.message ∧
        p'.errorCode = result.error) ∧
      (processPaymentDb s now pid (some vid) uid result).vouchers =
        s.vouchers) := by
  have hpid : p.pid = pid := by simpa using List.find?_some hp
  have hpay := find?_updateById Payment.pid (fun x => x.pid == pid) pid
    (settlePaymentUpdate now result) s.payments p
    (fun y => by simp [settlePaymentUpdate_pid]) hp hpid
  constructor
  · intro hs
    simp only [processPaymentDb, hp, hs, if_true]
    constructor
    · exact ⟨_, hpay, by simp [settlePaymentUpdate, hs],
        by simp [settlePaymentUpdate, hs]⟩
    · have hvch := find?_updateById Voucher.vid (fun x => x.vid == vid) vid
        (fun w => { w with isUsed := true, usedAt := some now, userId := uid })
        s.vouchers v (fun y => rfl) hv (by simpa using List.find?_some hv)
      exact ⟨_, hvch, rfl, rfl⟩
  · intro hf
    simp only [processPaymentDb, hp, hf]
    rw [if_neg (by simp)]
    refine ⟨⟨_, hpay, ?_, ?_, ?_⟩, rfl⟩
    · simp [settlePaymentUpdate, hf]
    · simp [settlePaymentUpdate, hf]
    · simp [settlePaymentUpdate, hf]

/-- An unused voucher fixture bound to the settlement payment. -/
def c2voucher : Voucher :=
  { vid := 5, code := "MW-SETTLE01", duration := 24, price := 10000,
    dataLimit := "5GB", status := "active", isUsed := false, createdAt := 0,
    expiresAt := 86400000, usedAt := none, userId := none, userInfo := none }

/-- A pending payment fixture bound to voucher 5. -/
def c2pay : Payment :=
  { c6pending with
    pid := 1
    amount := 10000
    voucherId := some 5
    reference := "MW-2" }

/-- Store fixture for the settlement claims. -/
def c2s : Store :=
  { users := [], vouchers := [c2voucher], payments := [c2pay], sessions := [] }

/-- A successful gateway result fixture. -/
def c2ok : GwResponse :=
  { success := true, provider := "MTN_MOMO",
    transactionId := some "MTN_0123456789AB", reference := "MW-2",
    amount := 10000, phoneNumber := "256070123456", status := "COMPLETED",
    error := none, message := "Payment completed successfully",
    providerResponse :=
      .mtnOk "MTN_0123456789AB" "10000" "256070123456" "MW-2" }

/-- A failed gateway result fixture. -/
def c2fail : GwResponse :=
  { success := false, provider := "MTN_MOMO", transactionId := none,
    reference := "MW-2", amount := 10000, phoneNumber := "256070123456",
    status := "FAILED", error := some "NETWORK_ERROR",
    message := "Network error occurred. Please try again",
    providerResponse :=
      .mtnFail "NETWORK_ERROR" "Network error occurred. Please try again"
        "MW-2" }

/-- Claim C2 witness: both settlement outcomes evaluated on the concrete
store with payment 1 and voucher 5. -/
theorem claim_C2_witness :
    ((∃ p', getPaymentById (processPaymentDb c2s 7 1 (some 5) none c2ok) 1
        = some p' ∧
      p'.status = "success" ∧ p'.completedAt = some 7) ∧
     (∃ v', getVoucherById (processPaymentDb c2s 7 1 (some 5) none c2ok) 5
        = some v' ∧
      v'.isUsed = true ∧ v'.usedAt = some 7)) ∧
    ((∃ p', getPaymentById (processPaymentDb c2s 7 1 (some 5) none c2fail) 1
        = some p' ∧
      p'.status = "failed" ∧ p'.failureReason = some c2fail.message ∧
      p'.errorCode = c2fail.error) ∧
     (processPaymentDb c2s 7 1 (some 5) none c2fail).vouchers =
       c2s.vouchers) :=
  ⟨(claim_C2 c2s 7 1 5 none c2ok c2pay c2voucher rfl rfl).1 rfl,
   (claim_C2 c2s 7 1 5 none c2fail c2pay c2voucher rfl rfl).2 rfl⟩

/-- The C9 property of one oracle draw: success thresholds per provider,
transaction-id shape and request echo on success, and failure pairs drawn
from the fixed five-entry tables on failure. -/
def gatewaySpecProp (amount : Int) (phone ref amId : String) (r : ℚ)
    (txBytes : List Nat) (failIdx : Fin 5) : Prop :=
  ((processMTNMoMoPayment amount phone ref r txBytes failIdx).success = true
      ↔ r < 85 / 100) ∧
  ((processAirtelMoneyPayment amount phone ref r txBytes failIdx amId).success
      = true ↔ r < 80 / 100) ∧
  (r < 85 / 100 →
    ∃ hex,
      (processMTNMoMoPayment amount phone ref r txBytes failIdx).transactionId
        = some ("MTN_" ++ hex) ∧
      hex.length = 12 ∧ (∀ c ∈ hex.data, isUpperHexDigit c = true) ∧
      (processMTNMoMoPayment amount phone ref r txBytes failIdx).amount
        = amount ∧
      (processMTNMoMoPayment amount phone ref r txBytes failIdx).phoneNumber
        = phone ∧
      (processMTNMoMoPayment amount phone ref r txBytes failIdx).reference
        = ref) ∧
  (r < 80 / 100 →
    ∃ hex,
      (processAirtelMoneyPayment amount phone ref r txBytes failIdx
        amId).transactionId = some ("AIRTEL_" ++ hex) ∧
      hex.length = 12 ∧ (∀ c ∈ hex.data, isUpperHexDigit c = true) ∧
      (processAirtelMoneyPayment amount phone ref r txBytes failIdx
        amId).amount = amount ∧
      (processAirtelMoneyPayment amount phone ref r txBytes failIdx
        amId).phoneNumber = phone ∧
      (processAirtelMoneyPayment amount phone ref r txBytes failIdx
        amId).reference = ref) ∧
  (¬ r < 85 / 100 →
    ∃ sc, sc ∈ mtnFailureScenarios ∧
      (processMTNMoMoPayment amount phone ref r txBytes failIdx).error
        = some sc.error ∧
      (processMTNMoMoPayment amount phone ref r txBytes failIdx).message
        = sc.message) ∧
  (¬ r < 80 / 100 →
    ∃ sc, sc ∈ airtelFailureScenarios ∧
      (processAirtelMoneyPayment amount phone ref r txBytes failIdx
        amId).error = some sc.error ∧
      (processAirtelMoneyPayment amount phone ref r txBytes failIdx
        amId).message = sc.message) ∧
  mtnFailureScenarios.length = 5 ∧ airtelFailureScenarios.length = 5

/-- Claim C9: for every gateway call with uniform draw `r`, the MTN mock
succeeds if and only if `r < 0.85` and the Airtel mock if and only if
`r < 0.80`; a success payload carries a transaction id of the shape
`PROVIDER_` followed by 12 upper-case hexadecimal characters and echoes the
request's amount, phone number and reference; a failure payload carries an
error/message pair from that provider's fixed list of exactly five failure
scenarios. -/
theorem claim_C9 (amount : Int) (phone ref amId : String) (r : ℚ)
    (txBytes : List Nat) (failIdx : Fin 5)
    (hlen : txBytes.length = 6) (hbytes : ∀ b ∈ txBytes, b < 256) :
    gatewaySpecProp amount phone ref amId r txBytes failIdx := by
  have hexlen : (bytesToHex txBytes).length = 12 := by
    rw [bytesToHex, length_string_mk, bytesToHexChars_length, hlen]
  have hexhex : ∀ c ∈ (bytesToHex txBytes).data, isUpperHexDigit c = true :=
    bytesToHexChars_hex txBytes hbytes
  refine ⟨?_, ?_, ?_, ?_, ?_, ?_, rfl, rfl⟩
  · unfold processMTNMoMoPayment
    by_cases h : r < 85 / 100 <;> simp [h]
  · unfold processAirtelMoneyPayment
    by_cases h : r < 80 / 100 <;> simp [h]
  · intro h
    refine ⟨bytesToHex txBytes, ?_, hexlen, hexhex, ?_, ?_, ?_⟩ <;>
      simp [processMTNMoMoPayment, h, generateTransactionId]
  · intro h
    refine ⟨bytesToHex txBytes, ?_, hexlen, hexhex, ?_, ?_, ?_⟩ <;>
      simp [processAirtelMoneyPayment, h, generateTransactionId]
  · intro h
    exact ⟨mtnScenarioAt failIdx, mtnScenarioAt_mem failIdx,
      by simp [processMTNMoMoPayment, h], by simp [processMTNMoMoPayment, h]⟩
  · intro h
    exact ⟨airtelScenarioAt failIdx, airtelScenarioAt_mem failIdx,
      by simp [processAirtelMoneyPayment, h],
      by simp [processAirtelMoneyPayment, h]⟩

/-- Claim C9 witness: the gateway property evaluated at a concrete oracle
draw of one half, six concrete bytes and failure index 2. -/
theorem claim_C9_witness :
    gatewaySpecProp 10000 "256070123456" "MW-9" "X9" (1 / 2)
      [1, 35, 69, 103, 137, 171] 2 :=
  claim_C9 10000 "256070123456" "MW-9" "X9" (1 / 2)
    [1, 35, 69, 103, 137, 171] 2 (by decide) (by decide)

/-- If the validation middleware passes, the amount check passed. -/
theorem validatePaymentData_amount {req : PayRequest}
    (h : validatePaymentData req = none) :
    amountInvalid req.amount = false := by
  by_contra hA
  simp only [Bool.not_eq_false] at hA
  rw [validatePaymentData, if_pos hA] at h
  simp at h

/-- A voucher fixture priced 1000, for the below-range counterexample. -/
def c5voucher : Voucher :=
  { vid := 2, code := "MW-C5AAAAAA", duration := 1, price := 1000,
    dataLimit := "500MB", status := "active", isUsed := false,
    createdAt := 0, expiresAt := 3600000, usedAt := none, userId := none,
    userInfo := none }

/-- Store fixture for the C5 counterexample. -/
def c5s : Store :=
  { users := [], vouchers := [c5voucher], payments := [], sessions := [] }

/-- A request against voucher 2 whose amount 500 differs from the price. -/
def c5req : PayRequest :=
  { amount := some 500, phoneNumber := "256070123456",
    paymentMethod := "mtn_momo", voucherId := some 2, userId := none }

/-- Claim C5 counterexample: a request with amount 500 against the existing,
unused voucher priced 1000 differs from the price, but is rejected by the
amount-range validation, not with the amount-mismatch rejection. -/
theorem claim_C5_cex :
    getVoucherById c5s 2 = some c5voucher ∧
    c5voucher.isUsed = false ∧
    c5req.voucherId = some 2 ∧
    c5req.amount = some 500 ∧
    ¬ c5voucher.price = 500 ∧
    (initiatePayment c5s 0 7 "MW-R5" c5req).1 = .err .invalidAmount ∧
    ¬ (initiatePayment c5s 0 7 "MW-R5" c5req).1 = .err .amountMismatch := by
  decide

/-- Claim C5 as amended: for a request that passes the field validation, if
the voucher exists, is unused, and the amount differs from its price,
initiation is rejected with the amount-mismatch rejection and the payments
collection is unchanged. -/
theorem claim_C5_amended (s : Store) (now newId : Nat) (ref : String)
    (req : PayRequest) (vid : Nat) (v : Voucher) (a : Int)
    (hval : validatePaymentData req = none)
    (hvid : req.voucherId = some vid)
    (hv : getVoucherById s vid = some v)
    (hused : v.isUsed = false)
    (ha : req.amount = some a)
    (hne : v.price ≠ a) :
    initiatePayment s now newId ref req = (.err .amountMismatch, s) ∧
    (initiatePayment s now newId ref req).2.payments = s.payments := by
  have h : initiatePayment s now newId ref req = (.err .amountMismatch, s) := by
    simp only [initiatePayment, hval, hvid, hv, ha]
    simp [hused, hne]
  exact ⟨h, by rw [h]⟩

/-- A voucher fixture priced 10000 for the amended C5 witness. -/
def c5wvoucher : Voucher := { c5voucher with vid := 6, price := 10000 }

/-- Store fixture for the amended C5 witness. -/
def c5ws : Store :=
  { users := [], vouchers := [c5wvoucher], payments := [], sessions := [] }

/-- A well-formed request offering 5000 against the 10000 voucher. -/
def c5wreq : PayRequest := { c5req with voucherId := some 6, amount := some 5000 }

/-- Claim C5 witness: the amended claim evaluated on the spec's concrete
scenario, amount 5000 against a voucher priced 10000. -/
theorem claim_C5_witness :
    initiatePayment c5ws 0 8 "MW-R5W" c5wreq = (.err .amountMismatch, c5ws) ∧
    (initiatePayment c5ws 0 8 "MW-R5W" c5wreq).2.payments = c5ws.payments :=
  claim_C5_amended c5ws 0 8 "MW-R5W" c5wreq 6 c5wvoucher 5000 (by decide) rfl
    rfl rfl rfl (by decide)

/-- Claim C10: the validation middleware rejects an out-of-range amount for
every store, before any voucher lookup; consequently, for a voucher priced
outside the interval 1000 to 50000 no request bound to it can ever create a
payment, and the store is returned unchanged. -/
theorem claim_C10 (s : Store) (now newId : Nat) (ref : String)
    (req : PayRequest) (vid : Nat) (v : Voucher)
    (hv : getVoucherById s vid = some v)
    (hout : v.price < 1000 ∨ v.price > 50000) :
    (amountInvalid req.amount = true →
      initiatePayment s now newId ref req = (.err .invalidAmount, s)) ∧
    (req.voucherId = some vid →
      (∀ p, (initiatePayment s now newId ref req).1 ≠ .created p) ∧
      (initiatePayment s now newId ref req).2 = s) := by
  constructor
  · intro hA
    unfold initiatePayment validatePaymentData
    rw [if_pos hA]
  · intro hvid
    cases hval : validatePaymentData req with
    | some e =>
      unfold initiatePayment
      rw [hval]
      exact ⟨fun p => by simp, rfl⟩
    | none =>
      have hA : amountInvalid req.amount = false := validatePaymentData_amount hval
      cases ha : req.amount with
      | none => rw [ha] at hA; simp [amountInvalid] at hA
      | some a =>
        rw [ha] at hA
        have hrange : 1000 ≤ a ∧ a ≤ 50000 := by
          simp [amountInvalid] at hA
          omega
        by_cases hused : v.isUsed = true
        · simp only [initiatePayment, hval, hvid, hv, ha]
          simp [hused]
        · have hne : v.price ≠ a := by omega
          simp only [initiatePayment, hval, hvid, hv, ha]
          simp [hused, hne]

/-- A voucher fixture priced 500, below the validation range. -/
def c10voucher : Voucher := { c5voucher with vid := 7, price := 500 }

/-- Store fixture for the C10 witness. -/
def c10s : Store :=
  { users := [], vouchers := [c10voucher], payments := [], sessions := [] }

/-- A request bound to voucher 7 whose amount 500 equals its price exactly. -/
def c10req : PayRequest := { c5req with voucherId := some 7, amount := some 500 }

/-- Claim C10 witness: a request offering exactly the below-range price 500
of voucher 7 is rejected by the amount validation, no payment is created,
and the store is unchanged. -/
theorem claim_C10_witness :
    initiatePayment c10s 0 9 "MW-RX" c10req = (.err .invalidAmount, c10s) ∧
    (∀ p, (initiatePayment c10s 0 9 "MW-RX" c10req).1 ≠ .created p) ∧
    (initiatePayment c10s 0 9 "MW-RX" c10req).2 = c10s :=
  ⟨(claim_C10 c10s 0 9 "MW-RX" c10req 7 c10voucher rfl
      (Or.inl (by decide))).1 (by decide),
   (claim_C10 c10s 0 9 "MW-RX" c10req 7 c10voucher rfl
      (Or.inl (by decide))).2 rfl⟩

/-- Inversion of a successful POST /payments: the created payment carries the
fresh id, is pending, is bound to the requested voucher, and the new store
only appends it. -/
theorem initiatePayment_created {s : Store} {now newId : Nat} {ref : String}
    {req : PayRequest} {p : Payment} {s' : Store}
    (h : initiatePayment s now newId ref req = (.created p, s')) :
    p.pid = newId ∧ p.voucherId = req.voucherId ∧ p.status = "pending" ∧
    s' = { s with payments := s.payments ++ [p] } := by
  cases hval : validatePaymentData req with
  | some e => simp [initiatePayment, hval] at h
  | none =>
    cases hvid : req.voucherId with
    | none => simp [initiatePayment, hval, hvid] at h
    | some vid =>
      cases hv : getVoucherById s vid with
      | none => simp [initiatePayment, hval, hvid, hv] at h
      | some v =>
        cases ha : req.amount with
        | none => simp [initiatePayment, hval, hvid, hv, ha] at h
        | some a =>
          by_cases hused : v.isUsed = true
          · simp [initiatePayment, hval, hvid, hv, ha, hused] at h
          · by_cases hne : v.price ≠ a
            · simp [initiatePayment, hval, hvid, hv, ha, hused, hne] at h
            · simp only [initiatePayment, hval, hvid, hv, ha] at h
              rw [if_neg hused, if_neg hne, Prod.mk.injEq] at h
              obtain ⟨h1, h2⟩ := h
              rw [InitResult.created.injEq] at h1
              subst h1
              exact ⟨rfl, rfl, rfl, h2.symm⟩

/-- Claim C1 as amended: when a payment created by POST /payments settles
with a gateway success, the payment becomes `success` and the bound voucher
is marked used, but the sessions collection is exactly what it was before
initiation: settlement opens no Session (sessions are created only by the
voucher redeem route). -/
theorem claim_C1_amended (s s1 : Store) (now t2 newId : Nat) (ref : String)
    (req : PayRequest) (p : Payment) (vid : Nat) (v : Voucher)
    (result : GwResponse)
    (hinit : initiatePayment s now newId ref req = (.created p, s1))
    (hfresh : ∀ q ∈ s.payments, q.pid ≠ newId)
    (_hvid : req.voucherId = some vid)
    (hv : getVoucherById s vid = some v)
    (hs : result.success = true) :
    (∃ p', getPaymentById
        (processPaymentDb s1 t2 newId (some vid) req.userId result) newId
        = some p' ∧ p'.status = "success") ∧
    (∃ v', getVoucherById
        (processPaymentDb s1 t2 newId (some vid) req.userId result) vid
        = some v' ∧ v'.isUsed = true) ∧
    (processPaymentDb s1 t2 newId (some vid) req.userId result).sessions
      = s.sessions := by
  obtain ⟨hpid, hpv, hpstat, hs1⟩ := initiatePayment_created hinit
  subst hs1
  have hfind : getPaymentById { s with payments := s.payments ++ [p] } newId
      = some p := by
    unfold getPaymentById
    rw [find?_append_of_none _ _ _ (fun x hx => by simp [hfresh x hx])]
    rw [List.find?_cons_of_pos _ (by simp [hpid])]
  have hvfind : s.vouchers.find? (fun x => x.vid == vid) = some v := hv
  have hpay : (updateById Payment.pid newId (settlePaymentUpdate t2 result)
      (s.payments ++ [p])).find? (fun x => x.pid == newId)
      = some (settlePaymentUpdate t2 result p) :=
    find?_updateById Payment.pid (fun x => x.pid == newId) newId
      (settlePaymentUpdate t2 result) (s.payments ++ [p]) p
      (fun y => by simp [settlePaymentUpdate_pid]) hfind hpid
  have hvch : (updateById Voucher.vid vid
      (fun w =>
        { w with isUsed := true, usedAt := some t2, userId := req.userId })
      s.vouchers).find? (fun x => x.vid == vid)
      = some { v with isUsed := true, usedAt := some t2,
                      userId := req.userId } :=
    find?_updateById Voucher.vid (fun x => x.vid == vid) vid
      (fun w =>
        { w with isUsed := true, usedAt := some t2, userId := req.userId })
      s.vouchers v (fun y => rfl) hvfind
      (by simpa using List.find?_some hvfind)
  have hred : processPaymentDb { s with payments := s.payments ++ [p] } t2
      newId (some vid) req.userId result
      = { s with
          payments := updateById Payment.pid newId
            (settlePaymentUpdate t2 result) (s.payments ++ [p])
          vouchers := updateById Voucher.vid vid
            (fun w =>
              { w with isUsed := true, usedAt := some t2,
                       userId := req.userId }) s.vouchers } := by
    simp only [processPaymentDb, hfind, hs, if_true]
  rw [hred]
  exact ⟨⟨settlePaymentUpdate t2 result p, hpay,
          by simp [settlePaymentUpdate, hs]⟩,
         ⟨{ v with isUsed := true, usedAt := some t2, userId := req.userId },
          hvch, rfl⟩, rfl⟩

/-- An available voucher fixture for the C1 scenario. -/
def c1voucher : Voucher :=
  { vid := 1, code := "MW-C1VOUCHA", duration := 24, price := 10000,
    dataLimit := "5GB", status := "active", isUsed := false, createdAt := 0,
    expiresAt := 86400000, usedAt := none, userId := none, userInfo := none }

/-- Initial store for the C1 scenario. -/
def c1s0 : Store :=
  { users := [], vouchers := [c1voucher], payments := [], sessions := [] }

/-- A well-formed purchase request for voucher 1. -/
def c1req : PayRequest :=
  { amount := some 10000, phoneNumber := "256070123456",
    paymentMethod := "mtn_momo", voucherId := some 1, userId := none }

/-- The pending payment created by POST /payments for `c1req`. -/
def c1pay : Payment :=
  { pid := 100, amount := 10000, phoneNumber := "256070123456",
    paymentMethod := "mtn_momo", voucherId := some 1, userId := none,
    status := "pending", transactionId := none, reference := "MW-R1",
    metaVoucherCode := "MW-C1VOUCHA", metaDataLimit := "5GB",
    metaDuration := 24, createdAt := 0, completedAt := none,
    cancelledAt := none, failureReason := none, errorCode := none,
    providerResponse := none, adminNotes := none }

/-- The store right after initiation. -/
def c1s1 : Store := { c1s0 with payments := [c1pay] }

/-- A concrete successful MTN gateway run (draw one half, below 0.85). -/
def c1res : GwResponse :=
  processMTNMoMoPayment 10000 "256070123456" "MW-R1" (1 / 2)
    [1, 35, 69, 103, 137, 171] 0

/-- Settlement never touches the sessions collection, whatever the inputs. -/
theorem processPaymentDb_sessions (s : Store) (now pid : Nat)
    (vidOpt uid : Option Nat) (result : GwResponse) :
    (processPaymentDb s now pid vidOpt uid result).sessions = s.sessions := by
  cases hq : getPaymentById s pid with
  | none => simp [processPaymentDb, hq]
  | some q =>
    cases vidOpt with
    | none => simp [processPaymentDb, hq]
    | some vid =>
      by_cases hs : result.success = true <;> simp [processPaymentDb, hq, hs]

/-- The concrete C1 gateway run succeeds: the draw one half is below 0.85. -/
theorem c1res_success : c1res.success = true := by
  have hlt : (1 / 2 : ℚ) < 85 / 100 := by norm_num
  simp only [c1res, processMTNMoMoPayment, if_pos hlt]

/-- Claim C1 counterexample: the payment initiated for voucher 1 settles
with a gateway success, yet the final store holds no Session at all — in
particular none whose length matches the voucher's 24-hour duration — so
successful settlement does not open a Session. -/
theorem claim_C1_cex :
    initiatePayment c1s0 0 100 "MW-R1" c1req = (.created c1pay, c1s1) ∧
    c1res.success = true ∧
    (processPaymentDb c1s1 5 100 (some 1) none c1res).sessions = [] ∧
    ¬ ∃ sess ∈ (processPaymentDb c1s1 5 100 (some 1) none c1res).sessions,
        sess.endTime - sess.startTime = c1voucher.duration * 60 * 60 * 1000 := by
  have hempty : (processPaymentDb c1s1 5 100 (some 1) none c1res).sessions
      = [] := by
    rw [processPaymentDb_sessions]
    rfl
  refine ⟨by decide, c1res_success, hempty, ?_⟩
  rintro ⟨sess, hmem, _⟩
  rw [hempty] at hmem
  simp at hmem

/-- Claim C1 witness: the amended claim evaluated on the concrete C1 run. -/
theorem claim_C1_witness :
    (∃ p', getPaymentById (processPaymentDb c1s1 5 100 (some 1) none c1res)
        100 = some p' ∧ p'.status = "success") ∧
    (∃ v', getVoucherById (processPaymentDb c1s1 5 100 (some 1) none c1res)
        1 = some v' ∧ v'.isUsed = true) ∧
    (processPaymentDb c1s1 5 100 (some 1) none c1res).sessions
      = c1s0.sessions :=
  claim_C1_amended c1s0 c1s1 0 5 100 "MW-R1" c1req c1pay 1 c1voucher c1res
    (by decide) (by decide) rfl rfl c1res_success

/-- The status a settlement writes, from the gateway flag alone. -/
theorem settlePaymentUpdate_status (now : Nat) (result : GwResponse)
    (p : Payment) :
    (settlePaymentUpdate now result p).status =
      if result.success = true then "success" else "failed" := by
  unfold settlePaymentUpdate
  by_cases h : result.success = true <;> simp [h]

/-- A failed payment fixture with no bound voucher. -/
def c3pay : Payment :=
  { c6pending with pid := 11, status := "failed", voucherId := none }

/-- Store fixture holding only the failed payment. -/
def c3s : Store :=
  { users := [], vouchers := [], payments := [c3pay], sessions := [] }

/-- Claim C3 counterexample: the non-admin update route moves payment 11
from `failed` straight to `cancelled` — a transition the claim forbids
(terminal `failed`, and `cancelled` reachable only from `pending`). -/
theorem claim_C3_cex :
    c3pay.status = "failed" ∧
    ∃ p', (updatePaymentRoute c3s 9 11 (some "cancelled") none none none).1
        = .ok p' ∧
      p'.status = "cancelled" ∧
      getPaymentById
        (updatePaymentRoute c3s 9 11 (some "cancelled") none none none).2 11
        = some p' :=
  ⟨rfl, { c3pay with status := "cancelled" }, by decide, rfl, by decide⟩

/-- Claim C3 as amended: only the cancellation route restricts payment
status transitions (pending to cancelled, invalid-state otherwise); the
non-admin and admin update routes accept any status of the valid list
whatever the current status is, and the settlement task overwrites any
current status with success or failed according to the gateway flag. -/
theorem claim_C3_amended :
    (∀ (s : Store) (now id : Nat) (p : Payment),
      getPaymentById s id = some p →
      (p.status = "pending" →
        ∃ p', (cancelPayment s now id).1 = .ok p' ∧
          p'.status = "cancelled") ∧
      (p.status ≠ "pending" →
        (cancelPayment s now id).1 = .invalidState ∧
        (cancelPayment s now id).2 = s)) ∧
    (∀ (s : Store) (now id : Nat) (p : Payment) (st : String),
      getPaymentById s id = some p → st ∈ validStatuses →
      ∃ p', (updatePaymentRoute s now id (some st) none none none).1
          = .ok p' ∧
        p'.status = st ∧
        getPaymentById
          (updatePaymentRoute s now id (some st) none none none).2 id
          = some p') ∧
    (∀ (s : Store) (now id : Nat) (p : Payment) (st : String),
      getPaymentById s id = some p → st ∈ validStatuses →
      ∃ p', (adminUpdatePayment s now id (some st) none none).1 = .ok p' ∧
        p'.status = st ∧
        getPaymentById (adminUpdatePayment s now id (some st) none none).2 id
          = some p') ∧
    (∀ (s : Store) (now pid : Nat) (vidOpt uid : Option Nat)
      (result : GwResponse) (p : Payment),
      getPaymentById s pid = some p →
      ∃ p', getPaymentById (processPaymentDb s now pid vidOpt uid result) pid
          = some p' ∧
        p'.status = (if result.success = true then "success" else "failed")) := by
  refine ⟨?_, ?_, ?_, ?_⟩
  · intro s now id p hp
    have hpid : p.pid = id := by simpa using List.find?_some hp
    constructor
    · intro hpend
      simp only [cancelPayment, hp]
      rw [if_neg (by simp [hpend])]
      exact ⟨_, rfl, rfl⟩
    · intro hne
      simp only [cancelPayment, hp]
      rw [if_pos hne]
      exact ⟨rfl, rfl⟩
  · intro s now id p st hp hst
    have hpid : p.pid = id := by simpa using List.find?_some hp
    have hsv : ¬ statusInvalid (some st) = true := by
      simp only [validStatuses, List.mem_cons, List.not_mem_nil,
        or_false] at hst
      rcases hst with rfl | rfl | rfl | rfl <;> decide
    simp only [updatePaymentRoute, hp]
    rw [if_neg hsv]
    refine ⟨_, rfl, ?_, ?_⟩
    · by_cases hcond : st = "success" ∧ ¬ p.status = "success" <;>
        simp [hcond]
    · exact find?_updateById Payment.pid (fun x => x.pid == id) id _
        s.payments p
        (fun y => by
          by_cases hcond : st = "success" ∧ ¬ p.status = "success" <;>
            simp [hcond])
        hp hpid
  · intro s now id p st hp hst
    have hpid : p.pid = id := by simpa using List.find?_some hp
    have hsv : ¬ statusInvalid (some st) = true := by
      simp only [validStatuses, List.mem_cons, List.not_mem_nil,
        or_false] at hst
      rcases hst with rfl | rfl | rfl | rfl <;> decide
    simp only [adminUpdatePayment, hp]
    rw [if_neg hsv]
    refine ⟨_, rfl, ?_, ?_⟩
    · by_cases hcond : st = "success" ∧ ¬ p.status = "success" <;>
        simp [hcond]
    · exact find?_updateById Payment.pid (fun x => x.pid == id) id _
        s.payments p
        (fun y => by
          by_cases hcond : st = "success" ∧ ¬ p.status = "success" <;>
            simp [hcond])
        hp hpid
  · intro s now pid vidOpt uid result p hp
    have hpid : p.pid = pid := by simpa using List.find?_some hp
    have hfind := find?_updateById Payment.pid (fun x => x.pid == pid) pid
      (settlePaymentUpdate now result) s.payments p
      (fun y => by simp [settlePaymentUpdate_pid]) hp hpid
    refine ⟨settlePaymentUpdate now result p, ?_,
      settlePaymentUpdate_status now result p⟩
    rcases vidOpt with _ | vid
    · simp only [processPaymentDb, hp]
      exact hfind
    · by_cases hs : result.success = true
      · simp only [processPaymentDb, hp, hs, if_true]
        exact hfind
      · simp only [processPaymentDb, hp, hs, Bool.false_eq_true, if_false]
        exact hfind

/-- Claim C3 witness: the unrestricted-update part of the amended claim,
evaluated on the concrete store of the counterexample: the failed payment 11
is reset to `pending` by the non-admin route. -/
theorem claim_C3_witness :
    ∃ p', (updatePaymentRoute c3s 9 11 (some "pending") none none none).1
        = .ok p' ∧
      p'.status = "pending" ∧
      getPaymentById
        (updatePaymentRoute c3s 9 11 (some "pending") none none none).2 11
        = some p' :=
  claim_C3_amended.2.1 c3s 9 11 c3pay "pending" rfl (by decide)
